import Mathlib

/-!
Verification of the candidate-screening workflow in `agency_script.py`.

The script wires five nodes into a linear langgraph pipeline over a flat
`State` record: two classifier stages backed by a text-generation service,
one router, and three constant terminal actions.  The backend is modelled
as a function from the final prompt text to `Except BackendError String`
(the service either returns raw text or raises).  A langgraph node returns
a partial update (a dict containing only the keys it sets), which the
framework merges into the running state; we model that with the `Update`
record and `mergeUpdate`.
-/

/-- Error raised by the backing text-generation service (model of the
opaque exception propagating out of `chain.invoke`). -/
structure BackendError where
  message : String
deriving Repr, DecidableEq

/-- The backing text-generation service: maps the fully substituted prompt
text to the raw reply, or fails. -/
def Backend : Type := String → Except BackendError String

/-- Python substring test `pattern in s` (used by `route_application` and
`get_status_color` via the `in` operator). -/
def strContains (s pattern : String) : Bool :=
  decide (pattern.data <:+: s.data)

/-- Python `str.strip()`: remove leading and trailing whitespace, modelled
over the underlying character list. -/
def strip (s : String) : String :=
  ⟨((s.data.dropWhile Char.isWhitespace).reverse.dropWhile Char.isWhitespace).reverse⟩

/-- The langgraph `State` TypedDict (src/agency_script.py:25-29).
`application` is supplied at `invoke` time; the remaining keys are absent
until the corresponding node has run, which we model with `Option`. -/
structure State where
  application : String
  experience_level : Option String := none
  skill_match : Option String := none
  response : Option String := none
deriving Repr, DecidableEq

/-- A partial state update as returned by a node: only the keys present in
the returned dict are set. `application` is never written by any node. -/
structure Update where
  experience_level : Option String := none
  skill_match : Option String := none
  response : Option String := none
deriving Repr, DecidableEq

/-- Key-wise merge: a key present in the update overrides, an absent key
leaves the old value. -/
def updateField : Option String → Option String → Option String
  | some v, _ => some v
  | none, old => old

/-- Langgraph merging a node's returned partial dict into the state. -/
def mergeUpdate (s : State) (u : Update) : State :=
  { application := s.application
    experience_level := updateField u.experience_level s.experience_level
    skill_match := updateField u.skill_match s.skill_match
    response := updateField u.response s.response }

/-- The experience-classification prompt (src/agency_script.py:37-48) with
the application text substituted for the template placeholder. -/
def experience_prompt (application : String) : String :=
  "Based on the job application below, categorize the candidate\x27s experience level.\n\n    Consider the following criteria:\n    - Entry-level: 0-2 years of experience, recent graduate, junior positions\n    - Mid-level: 3-7 years of experience, solid foundation, some leadership\n    - Senior-level: 8+ years of experience, leadership roles, expert knowledge\n\n    Respond with ONLY one of these exact phrases: \x27Entry-level\x27, \x27Mid-level\x27, or \x27Senior-level\x27\n\n    Application: " ++ application

/-- The skill-assessment prompt (src/agency_script.py:56-74) with the
application text substituted for the template placeholder. -/
def skill_prompt (application : String) : String :=
  "You are evaluating a candidate for a Python Developer position.\n\n    Required skills for this role:\n    - Python programming (mandatory)\n    - Web frameworks (Django, Flask, FastAPI)\n    - Database knowledge (SQL, PostgreSQL, MongoDB)\n    - Version control (Git)\n    - Testing frameworks\n    - API development\n    - Basic DevOps knowledge is a plus\n\n    Based on the application below, determine if the candidate\x27s skills match our requirements.\n    Consider both direct mentions and transferable skills.\n\n    Respond with ONLY one of these exact phrases: \x27Match\x27 or \x27No Match\x27\n\n    Application: " ++ application

/-- Node `categorize_experience` (src/agency_script.py:35-51): invoke the
backend on the filled template, strip the reply, return a dict containing
only `experience_level`. -/
def categorize_experience (backend : Backend) (state : State) :
    Except BackendError Update :=
  match backend (experience_prompt state.application) with
  | .error e => .error e
  | .ok content => .ok { experience_level := some (strip content) }

/-- Node `assess_skillset` (src/agency_script.py:54-77): invoke the backend
on the filled template, strip the reply, return a dict containing only
`skill_match`. -/
def assess_skillset (backend : Backend) (state : State) :
    Except BackendError Update :=
  match backend (skill_prompt state.application) with
  | .error e => .error e
  | .ok content => .ok { skill_match := some (strip content) }

/-- Fixed shortlist message returned by `schedule_hr_interview`
(src/agency_script.py:83). -/
def shortlist_message : String :=
  "🎉 Congratulations! Your application has been shortlisted. You will be contacted within 2-3 business days to schedule an HR interview. Our team will discuss the role details, compensation, and next steps with you."

/-- Fixed forwarding message returned by `escalate_to_recruiter`
(src/agency_script.py:90). -/
def escalate_message : String :=
  "🔄 Thank you for your application. While your experience is impressive, your skillset doesn\x27t align with our current Python Developer role. However, we\x27re forwarding your profile to our recruitment team to explore other suitable opportunities within our organization."

/-- Fixed decline message returned by `reject_application`
(src/agency_script.py:97). -/
def reject_message : String :=
  "📝 Thank you for your interest in our Python Developer position. After careful review, we\x27ve decided to move forward with other candidates whose experience and skills more closely match our current requirements. We encourage you to apply for future openings that align with your background."

/-- Terminal node `schedule_hr_interview` (src/agency_script.py:80-84):
returns a dict containing only the fixed shortlist `response`. -/
def schedule_hr_interview (_state : State) : Update :=
  { response := some shortlist_message }

/-- Terminal node `escalate_to_recruiter` (src/agency_script.py:87-91):
returns a dict containing only the fixed forwarding `response`. -/
def escalate_to_recruiter (_state : State) : Update :=
  { response := some escalate_message }

/-- Terminal node `reject_application` (src/agency_script.py:94-98):
returns a dict containing only the fixed decline `response`. -/
def reject_application (_state : State) : Update :=
  { response := some reject_message }

/-- Router `route_application` (src/agency_script.py:109-116).  The source
reads exactly the two fields `skill_match` and `experience_level` of the
state and returns the name of the next node. -/
def route_application (skill_match experience_level : String) : String :=
  if strContains skill_match "Match" then "schedule_hr_interview"
  else if strContains experience_level "Senior-level" then "escalate_to_recruiter"
  else "reject_application"

/-- Dispatch of the conditional edge (src/agency_script.py:122): run the
terminal node whose registered name the router returned. -/
def run_terminal_node (name : String) (s : State) : Update :=
  if name = "schedule_hr_interview" then schedule_hr_interview s
  else if name = "escalate_to_recruiter" then escalate_to_recruiter s
  else reject_application s

/-- Execution of the compiled workflow (edges at src/agency_script.py:119-125):
START → categorize_experience → assess_skillset → conditional route →
terminal node → END.  Returns the state after each node so that the
left-to-right population invariant can be stated; `app_invoke` below
projects out the final state. -/
def graph_states (backend : Backend) (application : String) :
    Except BackendError (State × State × State × State) :=
  let s0 : State := { application := application }
  match categorize_experience backend s0 with
  | .error e => .error e
  | .ok u1 =>
    let s1 := mergeUpdate s0 u1
    match assess_skillset backend s1 with
    | .error e => .error e
    | .ok u2 =>
      let s2 := mergeUpdate s1 u2
      let u3 := run_terminal_node
        (route_application (s2.skill_match.getD "") (s2.experience_level.getD "")) s2
      .ok (s0, s1, s2, mergeUpdate s2 u3)

/-- `app.invoke` (src/agency_script.py:128,133): the final state of the
compiled workflow. -/
def app_invoke (backend : Backend) (application : String) :
    Except BackendError State :=
  match graph_states backend application with
  | .error e => .error e
  | .ok states => .ok states.2.2.2

/-- The record built and returned by `run_candidate_screening`
(src/agency_script.py:134-138): exactly the three result keys. -/
structure ScreeningResult where
  experience_level : Option String
  skill_match : Option String
  response : Option String
deriving Repr, DecidableEq

/-- Pipeline entry point `run_candidate_screening`
(src/agency_script.py:131-138): invoke the compiled workflow and project
the three result fields; a backend error propagates uncaught. -/
def run_candidate_screening (backend : Backend) (application : String) :
    Except BackendError ScreeningResult :=
  match app_invoke backend application with
  | .error e => .error e
  | .ok results =>
      .ok { experience_level := results.experience_level
            skill_match := results.skill_match
            response := results.response }

/-- UI status classifier `get_status_color` (src/agency_script.py:141-148). -/
def get_status_color (skill_match experience_level : String) : String :=
  if strContains skill_match "Match" then "success"
  else if strContains experience_level "Senior-level" then "warning"
  else "error"

/-- One entry of the UI screening history (src/agency_script.py:230-235):
a timestamp, the (possibly truncated) application text, and the spread of
the result record. -/
structure ScreeningHistoryEntry where
  timestamp : String
  application : String
  result : ScreeningResult
deriving Repr, DecidableEq

/-- History insertion (src/agency_script.py:236):
`screening_history.insert(0, screening_result)` places the new result at
the front of the list. -/
def history_insert (history : List ScreeningHistoryEntry)
    (entry : ScreeningHistoryEntry) : List ScreeningHistoryEntry :=
  entry :: history

/-- Clear History action (src/agency_script.py:334-335):
`screening_history = []`. -/
def clear_history (_history : List ScreeningHistoryEntry) :
    List ScreeningHistoryEntry :=
  []

/-- C1: for every application text, `run_candidate_screening` either
returns a record in which all three fields are populated and `response`
equals exactly one of the three fixed template strings, or it propagates a
backend error; `Except` admits no other result. -/
theorem run_screening_total (backend : Backend) (application : String) :
    (∃ e, run_candidate_screening backend application = .error e) ∨
    (∃ r, run_candidate_screening backend application = .ok r ∧
      r.experience_level.isSome ∧ r.skill_match.isSome ∧
      (r.response = some shortlist_message ∨ r.response = some escalate_message ∨
        r.response = some reject_message)) := by
  cases h1 : backend (experience_prompt application) with
  | error e =>
      left
      exact ⟨e, by simp [run_candidate_screening, app_invoke, graph_states,
        categorize_experience, h1]⟩
  | ok raw1 =>
      cases h2 : backend (skill_prompt application) with
      | error e =>
          left
          refine ⟨e, ?_⟩
          simp [run_candidate_screening, app_invoke, graph_states,
            categorize_experience, assess_skillset, mergeUpdate, updateField, h1, h2]
      | ok raw2 =>
          right
          cases hm : strContains (strip raw2) "Match" with
          | true =>
              have hrun : run_candidate_screening backend application =
                  .ok { experience_level := some (strip raw1),
                        skill_match := some (strip raw2),
                        response := some shortlist_message } := by
                simp [run_candidate_screening, app_invoke, graph_states,
                  categorize_experience, assess_skillset, mergeUpdate, updateField,
                  route_application, run_terminal_node, schedule_hr_interview,
                  escalate_to_recruiter, reject_application, h1, h2, hm]
              exact ⟨_, hrun, by simp, by simp, Or.inl (by simp)⟩
          | false =>
              cases hs : strContains (strip raw1) "Senior-level" with
              | true =>
                  have hrun : run_candidate_screening backend application =
                      .ok { experience_level := some (strip raw1),
                            skill_match := some (strip raw2),
                            response := some escalate_message } := by
                    simp [run_candidate_screening, app_invoke, graph_states,
                      categorize_experience, assess_skillset, mergeUpdate, updateField,
                      route_application, run_terminal_node, schedule_hr_interview,
                      escalate_to_recruiter, reject_application, h1, h2, hm, hs]
                  exact ⟨_, hrun, by simp, by simp, Or.inr (Or.inl (by simp))⟩
              | false =>
                  have hrun : run_candidate_screening backend application =
                      .ok { experience_level := some (strip raw1),
                            skill_match := some (strip raw2),
                            response := some reject_message } := by
                    simp [run_candidate_screening, app_invoke, graph_states,
                      categorize_experience, assess_skillset, mergeUpdate, updateField,
                      route_application, run_terminal_node, schedule_hr_interview,
                      escalate_to_recruiter, reject_application, h1, h2, hm, hs]
                  exact ⟨_, hrun, by simp, by simp, Or.inr (Or.inr (by simp))⟩

/-- C2: the router is total and deterministic — for every pair of strings
it returns the schedule node when `skill_match` contains "Match", else the
escalate node when `experience_level` contains "Senior-level", else the
reject node, and the returned name is exactly one of the three. -/
theorem route_application_total (sm el : String) :
    (strContains sm "Match" = true → route_application sm el = "schedule_hr_interview") ∧
    (strContains sm "Match" = false → strContains el "Senior-level" = true →
      route_application sm el = "escalate_to_recruiter") ∧
    (strContains sm "Match" = false → strContains el "Senior-level" = false →
      route_application sm el = "reject_application") ∧
    ((route_application sm el = "schedule_hr_interview" ∧
        route_application sm el ≠ "escalate_to_recruiter" ∧
        route_application sm el ≠ "reject_application") ∨
      (route_application sm el = "escalate_to_recruiter" ∧
        route_application sm el ≠ "schedule_hr_interview" ∧
        route_application sm el ≠ "reject_application") ∨
      (route_application sm el = "reject_application" ∧
        route_application sm el ≠ "schedule_hr_interview" ∧
        route_application sm el ≠ "escalate_to_recruiter")) := by
  cases hm : strContains sm "Match" <;> cases hs : strContains el "Senior-level" <;>
    simp [route_application, hm, hs]

/-- Witness for C2: priority 1 wins over priority 2 on
("Match", "Senior-level"). -/
theorem route_application_total_witness :
    route_application "Match" "Senior-level" = "schedule_hr_interview" :=
  (route_application_total "Match" "Senior-level").1 (by decide)

/-- C3: substring collision — routing ("No Match", "Entry-level") selects
the schedule-interview node because "No Match" contains "Match". -/
theorem route_no_match_collision :
    route_application "No Match" "Entry-level" = "schedule_hr_interview" := by decide

/-- C4: each terminal action is a constant-output function: for every
input state it returns a dict holding exactly the fixed message for its
branch, independent of every field of the state. -/
theorem terminal_actions_constant (s : State) :
    schedule_hr_interview s = { response := some shortlist_message } ∧
    escalate_to_recruiter s = { response := some escalate_message } ∧
    reject_application s = { response := some reject_message } :=
  ⟨rfl, rfl, rfl⟩

/-- C5: whatever raw text the backend returns, the experience classifier
stores it stripped of leading and trailing whitespace as
`experience_level`, and the skill matcher stores it stripped as
`skill_match`, with no other transformation. -/
theorem classifier_output_trimmed (backend : Backend) (state : State) (raw : String) :
    (backend (experience_prompt state.application) = .ok raw →
      categorize_experience backend state = .ok { experience_level := some (strip raw) }) ∧
    (backend (skill_prompt state.application) = .ok raw →
      assess_skillset backend state = .ok { skill_match := some (strip raw) }) := by
  constructor <;> intro h <;> simp [categorize_experience, assess_skillset, h]

/-- Witness for C5: a backend replying with padded text yields the
whitespace-stripped label. -/
theorem classifier_output_trimmed_witness :
    categorize_experience (fun _ => .ok "  Senior-level  ") { application := "app" } =
      .ok { experience_level := some "Senior-level" } := by
  have h := (classifier_output_trimmed (fun _ => .ok "  Senior-level  ")
      { application := "app" } "  Senior-level  ").1 rfl
  have hs : strip "  Senior-level  " = "Senior-level" := by decide
  rw [hs] at h
  exact h

/-- C6: frame and ordering invariant — in every successful run the fields
are populated strictly left-to-right: the initial state holds only the
application, stage 1 adds only `experience_level`, stage 2 adds only
`skill_match`, the terminal node adds only `response`, and every field set
earlier is carried unchanged to each later state. -/
theorem graph_frame_invariant (backend : Backend) (application : String)
    (s0 s1 s2 s3 : State)
    (h : graph_states backend application = .ok (s0, s1, s2, s3)) :
    s0 = { application := application } ∧
    s1.application = application ∧ s1.experience_level.isSome ∧
      s1.skill_match = none ∧ s1.response = none ∧
    s2.application = application ∧ s2.experience_level = s1.experience_level ∧
      s2.skill_match.isSome ∧ s2.response = none ∧
    s3.application = application ∧ s3.experience_level = s2.experience_level ∧
      s3.skill_match = s2.skill_match ∧ s3.response.isSome := by
  cases h1 : backend (experience_prompt application) with
  | error e => simp [graph_states, categorize_experience, h1] at h
  | ok raw1 =>
    cases h2 : backend (skill_prompt application) with
    | error e =>
        simp [graph_states, categorize_experience, assess_skillset,
          mergeUpdate, updateField, h1, h2] at h
    | ok raw2 =>
        cases hm : strContains (strip raw2) "Match" with
        | true =>
            simp [graph_states, categorize_experience, assess_skillset,
              mergeUpdate, updateField, route_application, run_terminal_node,
              schedule_hr_interview, escalate_to_recruiter, reject_application,
              h1, h2, hm, Prod.ext_iff] at h
            obtain ⟨hs0, hs1, hs2, hs3⟩ := h
            subst hs0; subst hs1; subst hs2; subst hs3
            simp
        | false =>
            cases hs : strContains (strip raw1) "Senior-level" with
            | true =>
                simp [graph_states, categorize_experience, assess_skillset,
                  mergeUpdate, updateField, route_application, run_terminal_node,
                  schedule_hr_interview, escalate_to_recruiter, reject_application,
                  h1, h2, hm, hs, Prod.ext_iff] at h
                obtain ⟨hs0, hs1, hs2, hs3⟩ := h
                subst hs0; subst hs1; subst hs2; subst hs3
                simp
            | false =>
                simp [graph_states, categorize_experience, assess_skillset,
                  mergeUpdate, updateField, route_application, run_terminal_node,
                  schedule_hr_interview, escalate_to_recruiter, reject_application,
                  h1, h2, hm, hs, Prod.ext_iff] at h
                obtain ⟨hs0, hs1, hs2, hs3⟩ := h
                subst hs0; subst hs1; subst hs2; subst hs3
                simp

/-- Deterministic stub backend used to witness the frame invariant. -/
def frame_witness_backend : Backend := fun _ => Except.ok "Match"

/-- Initial state of the witness run. -/
def frame_s0 : State := { application := "app" }

/-- State of the witness run after the experience stage. -/
def frame_s1 : State := { application := "app", experience_level := some "Match" }

/-- State of the witness run after the skill stage. -/
def frame_s2 : State :=
  { application := "app", experience_level := some "Match", skill_match := some "Match" }

/-- Final state of the witness run. -/
def frame_s3 : State :=
  { application := "app", experience_level := some "Match", skill_match := some "Match",
    response := some shortlist_message }

/-- Witness for C6: the invariant instantiated on a concrete run with a
deterministic stub backend. -/
theorem graph_frame_invariant_witness :
    frame_s0 = { application := "app" } ∧
    frame_s1.application = "app" ∧ frame_s1.experience_level.isSome ∧
      frame_s1.skill_match = none ∧ frame_s1.response = none ∧
    frame_s2.application = "app" ∧ frame_s2.experience_level = frame_s1.experience_level ∧
      frame_s2.skill_match.isSome ∧ frame_s2.response = none ∧
    frame_s3.application = "app" ∧ frame_s3.experience_level = frame_s2.experience_level ∧
      frame_s3.skill_match = frame_s2.skill_match ∧ frame_s3.response.isSome :=
  graph_frame_invariant frame_witness_backend "app" frame_s0 frame_s1 frame_s2 frame_s3 rfl

/-- C7: determinism — two backends that agree as functions of the prompt
produce identical output records for the same application text, so a run
repeated with a deterministic backend stub yields the same record. -/
theorem run_screening_deterministic (b1 b2 : Backend) (application : String)
    (h : ∀ p, b1 p = b2 p) :
    run_candidate_screening b1 application = run_candidate_screening b2 application := by
  have hb : b1 = b2 := funext h
  rw [hb]

/-- Witness for C7: two syntactically different but extensionally equal
stub backends give the same result. -/
theorem run_screening_deterministic_witness :
    run_candidate_screening (fun _ => Except.ok "Match") "app" =
      run_candidate_screening (fun _ => Except.ok ("Mat" ++ "ch")) "app" :=
  run_screening_deterministic _ _ "app" (fun _ => rfl)

/-- C8: error propagation and atomicity — a backend error during either of
the first two stages makes the entire run return that error, so no partial
record ever reaches the caller. -/
theorem backend_error_propagates (backend : Backend) (application : String) (e : BackendError)
    (h : backend (experience_prompt application) = .error e ∨
      ((∃ raw, backend (experience_prompt application) = .ok raw) ∧
        backend (skill_prompt application) = .error e)) :
    run_candidate_screening backend application = .error e := by
  rcases h with h1 | ⟨⟨raw, h1⟩, h2⟩
  · simp [run_candidate_screening, app_invoke, graph_states, categorize_experience, h1]
  · simp [run_candidate_screening, app_invoke, graph_states, categorize_experience,
      assess_skillset, mergeUpdate, updateField, h1, h2]

/-- Witness for C8: a backend that always fails makes the run fail with
that very error. -/
theorem backend_error_propagates_witness :
    run_candidate_screening (fun _ => .error { message := "backend down" }) "text" =
      .error { message := "backend down" } :=
  backend_error_propagates _ "text" _ (Or.inl rfl)

/-- C9: history ordering and clearing — inserting places the new entry at
the front (most recent first), shifts the previous entries by one, and
clearing resets the history to zero entries. -/
theorem history_front_and_clear (h : List ScreeningHistoryEntry)
    (r : ScreeningHistoryEntry) :
    (history_insert h r).head? = some r ∧
    (history_insert h r).length = h.length + 1 ∧
    (∀ i : Nat, (history_insert h r)[i + 1]? = h[i]?) ∧
    clear_history h = [] := by
  refine ⟨rfl, rfl, ?_, rfl⟩
  intro i
  simp [history_insert]

/-- C10: the UI status classifier agrees with the router — for every pair
of strings, "success", "warning" and "error" correspond exactly to the
schedule, escalate and reject routes respectively. -/
theorem status_color_agrees_with_route (sm el : String) :
    (get_status_color sm el = "success" ↔
      route_application sm el = "schedule_hr_interview") ∧
    (get_status_color sm el = "warning" ↔
      route_application sm el = "escalate_to_recruiter") ∧
    (get_status_color sm el = "error" ↔
      route_application sm el = "reject_application") := by
  cases hm : strContains sm "Match" <;> cases hs : strContains el "Senior-level" <;>
    simp [get_status_color, route_application, hm, hs]
